import Mathlib

/-!
Verification of the `llm-unified-client` Go library against its
natural-language specification.

The Go sources are shallowly embedded: Go structs become Lean structures,
Go `string`-typed enums (`Provider`, `MessageRole`) become `String`
constants, `float64` values that are only carried (never computed with)
become `ℚ`, Go `int` becomes `Int` (or `Nat` where the property restricts
to non-negative values), `*T` optional fields become `Option T`, and
fallible functions return `Except LLMError _`.  `map[string]interface{}`
payloads become functions `String → Option PValue` with Go map assignment
as pointwise update, which captures lookup semantics exactly (Go maps are
unordered).  Wall-clock measurement (`ResponseTime`) is not modelled.
Adapters' HTTP round trips are modelled by an explicit oracle
(`HttpResult`) giving the transport outcome, and operations that may
perform HTTP return the list of HTTP calls they issued alongside their
result, so "no network call is attempted" is the statement that this
list is empty.
-/

set_option autoImplicit false

namespace LLMClient

/-! ## Data model (types.go) -/

/-- `MessageRole` constant from types.go. -/
def RoleSystem : String := "system"

/-- `MessageRole` constant from types.go. -/
def RoleUser : String := "user"

/-- `MessageRole` constant from types.go. -/
def RoleAssistant : String := "assistant"

/-- `MessageRole` constant from types.go. -/
def RoleFunction : String := "function"

/-- `Provider` constant from types.go. -/
def ProviderOpenAI : String := "openai"

/-- `Provider` constant from types.go. -/
def ProviderDeepSeek : String := "deepseek"

/-- `Provider` constant from types.go. -/
def ProviderQwen : String := "qwen"

/-- `Provider` constant from types.go. -/
def ProviderAzure : String := "azure"

/-- Modelled from the spec: the constant `ProviderCohere = "cohere"` is
declared in the revision of types.go described by the CHANGELOG
("Updated provider list in types.go to include `ProviderCohere`") and by
the release notes' code block, and is used by embedding_test.go; that
revision of types.go is not in the snapshot. -/
def ProviderCohere : String := "cohere"

/-- `Message` from types.go.  `Role` is the string-typed `MessageRole`. -/
structure Message where
  Role : String
  Content : String
  Name : String
  deriving DecidableEq, Repr

/-- `ChatHistory` from types.go. -/
structure ChatHistory where
  Messages : List Message
  deriving DecidableEq, Repr

/-- One entry of the OpenAI-format message array built by
`convertMessages` (openai_client.go / azure_client.go / qwen_client.go).
The `name` key is present only when the Go `Name` field is non-empty. -/
structure OAIMsg where
  role : String
  content : String
  name : Option String
  deriving DecidableEq, Repr

/-- One entry of the Cohere `chat_history` array built by
`cohereClient.buildPayload` (cohere_client.go). -/
structure CohereHistMsg where
  role : String
  message : String
  deriving DecidableEq, Repr

/-- JSON-compatible values stored in a `map[string]interface{}` payload. -/
inductive PValue where
  | str (s : String)
  | int (n : Int)
  | num (q : ℚ)
  | bool (b : Bool)
  | strList (l : List String)
  | msgs (l : List OAIMsg)
  | hist (l : List CohereHistMsg)
  deriving DecidableEq, Repr

/-- `Request` from types.go.  `float64` fields are carried as `ℚ`;
`ExtraParams` (a Go map with unique keys) is carried as an association
list. -/
structure Request where
  Messages : List Message := []
  SystemPrompt : String := ""
  Temperature : Option ℚ := none
  MaxTokens : Option Int := none
  TopP : Option ℚ := none
  TopK : Option Int := none
  Stream : Bool := false
  ExtraParams : List (String × PValue) := []
  Model : Option String := none
  deriving DecidableEq, Repr

/-- `Response` from types.go.  `ResponseTime` (wall clock) and the unused
streaming channel are not modelled. -/
structure Response where
  Content : String
  Role : String
  TokensUsed : Int
  FinishReason : String
  deriving DecidableEq, Repr

/-- `Config` from types.go.  `Timeout` is a duration in nanoseconds. -/
structure Config where
  Provider : String
  APIKey : String
  BaseURL : String := ""
  Timeout : Int := 0
  DefaultModel : String := ""
  DefaultTemperature : Option ℚ := none
  DefaultMaxTokens : Option Int := none
  DefaultTopP : Option ℚ := none
  DefaultTopK : Option Int := none
  ExtraConfig : List (String × PValue) := []
  deriving DecidableEq, Repr

/-- `EmbeddingRequest` (declared in the CHANGELOG's revision of types.go,
shown verbatim in the release notes and used by embedding_test.go). -/
structure EmbeddingRequest where
  Input : List String
  Model : Option String := none
  deriving DecidableEq, Repr

/-- `EmbeddingResponse`; `ResponseTime` is not modelled. -/
structure EmbeddingResponse where
  Embeddings : List (List ℚ)
  Model : String
  TokensUsed : Int
  deriving DecidableEq, Repr

/-- Error taxonomy of spec §7.  Each constructor carries the message (or
status/body) produced at the corresponding `fmt.Errorf` site in the Go
code; the constructor choice records which taxonomy class that site
belongs to. -/
inductive LLMError where
  | configurationError (msg : String)
  | unsupportedProvider (provider : String)
  | unsupportedOperation (msg : String)
  | transportError (msg : String)
  | remoteAPIError (status : Nat) (body : String)
  | decodeError (msg : String)
  | emptyResult (msg : String)
  deriving DecidableEq, Repr

/-- `30 * time.Second` in nanoseconds. -/
def thirtySeconds : Int := 30000000000

/-- Whether `l` starts with `sub`. -/
def listBeginsWith : List Char → List Char → Bool
  | _, [] => true
  | [], _ :: _ => false
  | a :: as, b :: bs => a == b && listBeginsWith as bs

/-- Whether `sub` occurs contiguously inside `l`. -/
def listHasInfix (l sub : List Char) : Bool :=
  match l with
  | [] => listBeginsWith [] sub
  | _ :: rest => listBeginsWith l sub || listHasInfix rest sub

/-- Go `strings.Contains`: `sub` occurs contiguously inside `s`. -/
def stringContains (s sub : String) : Bool := listHasInfix s.data sub.data

/-! ## Adapter constructors and the client factory (client.go and the
per-provider `new…Client` constructors) -/

/-- The concrete adapter chosen by `NewClient`, holding the adapter's
stored (defaulted) `Config`.  OpenAI and DeepSeek share the
`openAIClient` implementation. -/
inductive ClientImpl where
  | openai (config : Config)
  | qwen (config : Config)
  | azure (config : Config)
  | cohere (config : Config)
  deriving DecidableEq, Repr

/-- `newOpenAIClient` (openai_client.go lines 20-61): requires a
non-empty API key, then fills in provider-dependent defaults. -/
def newOpenAIClient (config : Config) : Except LLMError Config :=
  if config.APIKey = "" then
    .error (.configurationError "API key is required")
  else
    let c := if config.BaseURL = "" then
      { config with BaseURL :=
          if config.Provider = ProviderOpenAI then "https://api.openai.com/v1"
          else if config.Provider = ProviderDeepSeek then "https://api.deepseek.com"
          else "https://api.openai.com/v1" }
      else config
    let c := if c.Timeout = 0 then { c with Timeout := thirtySeconds } else c
    let c := if c.DefaultModel = "" then
      { c with DefaultModel :=
          if c.Provider = ProviderOpenAI then "gpt-3.5-turbo"
          else if c.Provider = ProviderDeepSeek then "deepseek-chat"
          else "gpt-3.5-turbo" }
      else c
    .ok c

/-- `newQwenClient` (qwen_client.go, OpenAI-compatible revision,
lines 20-45). -/
def newQwenClient (config : Config) : Except LLMError Config :=
  if config.APIKey = "" then
    .error (.configurationError "API key is required")
  else
    let c := if config.BaseURL = "" then
      { config with BaseURL := "https://dashscope-intl.aliyuncs.com/compatible-mode/v1" }
      else config
    let c := if c.Timeout = 0 then { c with Timeout := thirtySeconds } else c
    let c := if c.DefaultModel = "" then
      { c with DefaultModel := "qwen3-next-80b-a3b-instruct" } else c
    .ok c

/-- `newAzureClient` (azure_client.go lines 21-53): API key checked
first, then the base URL must be present and contain `/deployments/`. -/
def newAzureClient (config : Config) : Except LLMError Config :=
  if config.APIKey = "" then
    .error (.configurationError "API key is required")
  else if config.BaseURL = "" then
    .error (.configurationError "base URL is required for Azure OpenAI")
  else if ¬ stringContains config.BaseURL "/deployments/" then
    .error (.configurationError
      "Azure OpenAI URL must include deployment name: /deployments/<deployment-name>")
  else
    let c := if config.Timeout = 0 then { config with Timeout := thirtySeconds } else config
    let c := if c.DefaultModel = "" then { c with DefaultModel := "gpt-35-turbo" } else c
    .ok c

/-- `newCohereClient` (cohere_client.go lines 485-511 of the snapshot's
EMBEDDING_API.md blob). -/
def newCohereClient (config : Config) : Except LLMError Config :=
  if config.APIKey = "" then
    .error (.configurationError "API key is required")
  else
    let c := if config.BaseURL = "" then
      { config with BaseURL := "https://api.cohere.ai/v1" } else config
    let c := if c.Timeout = 0 then { c with Timeout := thirtySeconds } else c
    let c := if c.DefaultModel = "" then
      { c with DefaultModel := "embed-multilingual-v3.0" } else c
    .ok c

/-- `NewClient` (client.go lines 9-20).  The switch dispatches on the
provider tag; note that the snapshot's client.go has *no* case for
`ProviderCohere`, so a cohere config falls into the default branch. -/
def NewClient (config : Config) : Except LLMError ClientImpl :=
  if config.Provider = ProviderOpenAI ∨ config.Provider = ProviderDeepSeek then
    (newOpenAIClient config).map .openai
  else if config.Provider = ProviderQwen then
    (newQwenClient config).map .qwen
  else if config.Provider = ProviderAzure then
    (newAzureClient config).map .azure
  else
    .error (.unsupportedProvider config.Provider)

/-! ## Request / history builders (client.go) -/

/-- `BuildSimpleRequest` (client.go lines 40-46). -/
def BuildSimpleRequest (message : String) : Request :=
  { Messages := [⟨RoleUser, message, ""⟩] }

/-- `BuildChatRequest` (client.go lines 49-57): a fresh message list made
of the history followed by the new user message. -/
def BuildChatRequest (history : List Message) (userMessage : String) : Request :=
  { Messages := history ++ [⟨RoleUser, userMessage, ""⟩] }

/-- `Request.AddSystemMessage` (client.go lines 70-72): prepends a system
message. -/
def addSystemMessage (r : Request) (content : String) : Request :=
  { r with Messages := ⟨RoleSystem, content, ""⟩ :: r.Messages }

/-- The request that `GenerateWithHistory` passes to `Generate`
(openai_client.go lines 137-143; the qwen, azure and cohere adapters and
the package-level helper at client.go lines 173-179 construct it with
identical code). -/
def generateWithHistoryRequest (history : ChatHistory) (userMessage systemPrompt : String) :
    Request :=
  let request := BuildChatRequest history.Messages userMessage
  if systemPrompt ≠ "" then addSystemMessage request systemPrompt else request

/-- `ChatHistory.Truncate` (client.go lines 158-162): keep only the last
`n` messages.  The Go parameter is an `int`; the spec property quantifies
over `n ≥ 0`, embedded here as `Nat`. -/
def truncateHistory (h : ChatHistory) (n : Nat) : ChatHistory :=
  if h.Messages.length > n then
    ⟨h.Messages.drop (h.Messages.length - n)⟩
  else h

/-! ## Payload maps

Go `map[string]interface{}` payloads are modelled as functions
`String → Option PValue`; `payload[k] = v` is a pointwise update.  Go
maps are unordered, so lookup behaviour is the whole semantics. -/

/-- A `map[string]interface{}` JSON payload. -/
def Payload : Type := String → Option PValue

/-- The empty map. -/
def emptyPayload : Payload := fun _ => none

/-- Go map assignment `payload[k] = v`: later assignments to the same key
replace earlier ones. -/
def mapSet (m : Payload) (k : String) (v : PValue) : Payload :=
  fun q => if q = k then some v else m q

/-- Go map lookup. -/
def mapGet (m : Payload) (k : String) : Option PValue := m k

/-- A map literal `{k₁: v₁, …}` built from an entry list. -/
def mapOf (kvs : List (String × PValue)) : Payload :=
  kvs.foldl (fun acc kv => mapSet acc kv.1 kv.2) emptyPayload

/-- The Go loop `for k, v := range extra { payload[k] = v }`. -/
def mapSetAll (m : Payload) (kvs : List (String × PValue)) : Payload :=
  kvs.foldl (fun acc kv => mapSet acc kv.1 kv.2) m

/-- The two-level `if x != nil { payload[k] = *x } else if y != nil
{ payload[k] = *y }` chain every builder uses for its optional sampling
parameters: request-level value first, else the config-level default,
else the key is left absent. -/
def setFromOpt (m : Payload) (k : String) (reqVal cfgVal : Option PValue) : Payload :=
  match reqVal with
  | some v => mapSet m k v
  | none =>
    match cfgVal with
    | some v => mapSet m k v
    | none => m

/-- Request-level value if set, else the fallback (the shape of every
`if x != nil` resolution in the builders). -/
def firstSome {α : Type} (a b : Option α) : Option α :=
  match a with
  | some x => some x
  | none => b

/-! ## Payload builders -/

/-- `openAIClient.getModel` / `qwenClient.getModel`: request override or
the configured default model. -/
def getModel (c : Config) (override : Option String) : String :=
  match override with
  | some m => m
  | none => c.DefaultModel

/-- `openAIClient.convertMessages` (openai_client.go lines 200-212,
identical in azure_client.go): role and content always, `name` only when
non-empty. -/
def convertMessages (messages : List Message) : List OAIMsg :=
  messages.map fun msg =>
    ⟨msg.Role, msg.Content, if msg.Name = "" then none else some msg.Name⟩

/-- `qwenClient.buildPayload`'s message conversion (qwen_client.go,
OpenAI-compatible revision, lines 142-148): role and content only. -/
def qwenConvertMessages (messages : List Message) : List OAIMsg :=
  messages.map fun msg => ⟨msg.Role, msg.Content, none⟩

/-- `openAIClient.buildPayload` (openai_client.go lines 157-189): model,
messages and stream always; temperature, max_tokens and top_p resolved
request-then-config (no hardcoded fallback, and `TopK` is never mapped);
finally `ExtraParams` copied over the named fields. -/
def openAIBuildPayload (c : Config) (r : Request) : Payload :=
  let payload := mapOf
    [("model", .str (getModel c r.Model)),
     ("messages", .msgs (convertMessages r.Messages)),
     ("stream", .bool r.Stream)]
  let payload := setFromOpt payload "temperature" (r.Temperature.map .num)
    (c.DefaultTemperature.map .num)
  let payload := setFromOpt payload "max_tokens" (r.MaxTokens.map .int)
    (c.DefaultMaxTokens.map .int)
  let payload := setFromOpt payload "top_p" (r.TopP.map .num) (c.DefaultTopP.map .num)
  mapSetAll payload r.ExtraParams

/-- `azureClient.buildPayload` (azure_client.go lines 156-187): like the
OpenAI builder but without the `model` key (Azure selects the model via
the deployment path). -/
def azureBuildPayload (c : Config) (r : Request) : Payload :=
  let payload := mapOf
    [("messages", .msgs (convertMessages r.Messages)),
     ("stream", .bool r.Stream)]
  let payload := setFromOpt payload "temperature" (r.Temperature.map .num)
    (c.DefaultTemperature.map .num)
  let payload := setFromOpt payload "max_tokens" (r.MaxTokens.map .int)
    (c.DefaultMaxTokens.map .int)
  let payload := setFromOpt payload "top_p" (r.TopP.map .num) (c.DefaultTopP.map .num)
  mapSetAll payload r.ExtraParams

/-- `qwenClient.getMaxTokens` (identical in both qwen_client.go
revisions, lines 201-209): request override, else config default, else
the hardcoded 1500. -/
def qwenGetMaxTokens (c : Config) (override : Option Int) : Int :=
  match override with
  | some t => t
  | none =>
    match c.DefaultMaxTokens with
    | some t => t
    | none => 1500

/-- `qwenClient.buildPayload` (qwen_client.go, OpenAI-compatible
revision, lines 140-184): model, messages and max_tokens always (the
only parameter with a hardcoded default); temperature, top_p and top_k
request-then-config; finally `ExtraParams` copied over the named
fields. -/
def qwenBuildPayload (c : Config) (r : Request) : Payload :=
  let payload := mapOf
    [("model", .str (getModel c r.Model)),
     ("messages", .msgs (qwenConvertMessages r.Messages)),
     ("max_tokens", .int (qwenGetMaxTokens c r.MaxTokens))]
  let payload := setFromOpt payload "temperature" (r.Temperature.map .num)
    (c.DefaultTemperature.map .num)
  let payload := setFromOpt payload "top_p" (r.TopP.map .num) (c.DefaultTopP.map .num)
  let payload := setFromOpt payload "top_k" (r.TopK.map .int) (c.DefaultTopK.map .int)
  mapSetAll payload r.ExtraParams

/-- `cohereClient.getModel` (cohere_client.go lines 751-760): request
override; else, when the configured default is empty or is the embedding
model name, the hardcoded chat model; else the configured default. -/
def cohereGetModel (c : Config) (override : Option String) : String :=
  match override with
  | some m => m
  | none =>
    if c.DefaultModel = "" ∨ c.DefaultModel = "embed-multilingual-v3.0" then
      "command-r-plus"
    else c.DefaultModel

/-- The message-splitting loop of `cohereClient.buildPayload`
(cohere_client.go lines 682-703): for each message at index `i` of `n`,
system messages are skipped, a user message becomes the single `message`
exactly when it sits at the final index `n-1` (otherwise it is appended
to `chat_history` with role `USER`), and assistant messages are appended
with role `CHATBOT`. -/
def cohereLoop (n : Nat) (i : Nat) (msgs : List Message) (message : String)
    (chatHistory : List CohereHistMsg) : String × List CohereHistMsg :=
  match msgs with
  | [] => (message, chatHistory)
  | msg :: rest =>
    if msg.Role = RoleSystem then
      cohereLoop n (i + 1) rest message chatHistory
    else if msg.Role = RoleUser then
      if i = n - 1 then
        cohereLoop n (i + 1) rest msg.Content chatHistory
      else
        cohereLoop n (i + 1) rest message (chatHistory ++ [⟨"USER", msg.Content⟩])
    else if msg.Role = RoleAssistant then
      cohereLoop n (i + 1) rest message (chatHistory ++ [⟨"CHATBOT", msg.Content⟩])
    else
      cohereLoop n (i + 1) rest message chatHistory

/-- `cohereClient.buildPayload` (cohere_client.go lines 677-748):
`message`/`chat_history` from the loop (the `chat_history` key only when
non-empty), model always, temperature and max_tokens request-then-config,
top_p as `p`, top_k as `k`, then `ExtraParams` copied over. -/
def cohereBuildPayload (c : Config) (r : Request) : Payload :=
  let split := cohereLoop r.Messages.length 0 r.Messages "" []
  let payload := mapOf
    [("message", .str split.1),
     ("model", .str (cohereGetModel c r.Model))]
  let payload := if split.2.length > 0 then mapSet payload "chat_history" (.hist split.2)
    else payload
  let payload := setFromOpt payload "temperature" (r.Temperature.map .num)
    (c.DefaultTemperature.map .num)
  let payload := setFromOpt payload "max_tokens" (r.MaxTokens.map .int)
    (c.DefaultMaxTokens.map .int)
  let payload := setFromOpt payload "p" (r.TopP.map .num) (c.DefaultTopP.map .num)
  let payload := setFromOpt payload "k" (r.TopK.map .int) (c.DefaultTopK.map .int)
  mapSetAll payload r.ExtraParams

/-! ## HTTP round-trip model

Each adapter call performs at most one HTTP POST.  The transport outcome
is an oracle parameter: either a transport-level failure from
`httpClient.Do`, or a status code with the raw body text and, when the
body decodes as the expected JSON shape, the parsed value.  Operations
return the list of HTTP calls they issued, so "no network call" is
`trace = []`. -/

/-- One HTTP call as issued by an adapter. -/
structure HttpCall where
  method : String
  url : String
  body : Payload

/-- Outcome of one HTTP round trip with expected parsed body type `β`. -/
inductive HttpResult (β : Type) where
  | failure (msg : String)
  | response (status : Nat) (rawBody : String) (parsed : Option β)

/-- Parsed success body of an OpenAI-style `/chat/completions` response:
`choices[i].message.{role,content}`, `choices[i].finish_reason`,
`usage.total_tokens`. -/
structure OAIChoice where
  role : String
  content : String
  finishReason : String
  deriving DecidableEq, Repr

/-- OpenAI-style chat completion body. -/
structure OAIChatBody where
  choices : List OAIChoice
  totalTokens : Int
  deriving DecidableEq, Repr

/-- The response mapping of `openAIClient.Generate` (openai_client.go
lines 64-134) after the payload has been marshalled: transport failure,
then the non-2xx status check, then JSON decoding, then the empty
`choices` check, then projection of `choices[0]`. -/
def openAIGenerateResult (o : HttpResult OAIChatBody) : Except LLMError Response :=
  match o with
  | .failure msg => .error (.transportError ("failed to send request: " ++ msg))
  | .response status rawBody parsed =>
    if status < 200 ∨ 300 ≤ status then
      .error (.remoteAPIError status rawBody)
    else
      match parsed with
      | none => .error (.decodeError "failed to unmarshal response")
      | some body =>
        match body.choices with
        | [] => .error (.emptyResult "no choices in LLM response")
        | choice :: _ =>
          .ok ⟨choice.content, choice.role, body.totalTokens, choice.finishReason⟩

/-! ## Embedding operations -/

/-- Parsed success body of the Cohere `/embed` response: the
`embeddings` array of vectors and `meta.billed_units.input_tokens`. -/
structure CohereEmbedBody where
  embeddings : List (List ℚ)
  inputTokens : Int
  deriving DecidableEq, Repr

/-- The embedding model chosen by `cohereClient.CreateEmbedding`
(cohere_client.go lines 591-597): request override, else the configured
default when non-empty, else `embed-multilingual-v3.0`. -/
def cohereEmbedModel (c : Config) (r : EmbeddingRequest) : String :=
  match r.Model with
  | some m => m
  | none => if c.DefaultModel ≠ "" then c.DefaultModel else "embed-multilingual-v3.0"

/-- `cohereClient.CreateEmbedding` (cohere_client.go lines 588-664):
POSTs `{model, texts, input_type: "search_document"}` to `/embed`, then
checks status, decodes, fails with the empty-result error when the
parsed `embeddings` array is empty, and otherwise returns the parsed
vectors verbatim (no comparison against `len(request.Input)`). -/
def cohereCreateEmbedding (c : Config) (r : EmbeddingRequest)
    (o : HttpResult CohereEmbedBody) :
    List HttpCall × Except LLMError EmbeddingResponse :=
  let model := cohereEmbedModel c r
  let payload := mapOf
    [("model", .str model), ("texts", .strList r.Input),
     ("input_type", .str "search_document")]
  let call : HttpCall := ⟨"POST", c.BaseURL ++ "/embed", payload⟩
  match o with
  | .failure msg =>
    ([call], .error (.transportError ("failed to send embedding request: " ++ msg)))
  | .response status rawBody parsed =>
    if status < 200 ∨ 300 ≤ status then
      ([call], .error (.remoteAPIError status rawBody))
    else
      match parsed with
      | none => ([call], .error (.decodeError "failed to unmarshal embedding response"))
      | some body =>
        if body.embeddings.isEmpty then
          ([call], .error (.emptyResult "no embeddings in response"))
        else
          ([call], .ok ⟨body.embeddings, model, body.inputTokens⟩)

/-- `azureClient.CreateEmbedding` (azure_client.go lines 151-153): a
declared stub that returns the unsupported-operation error immediately;
no HTTP request is constructed or sent. -/
def azureCreateEmbedding (_c : Config) (_r : EmbeddingRequest) :
    List HttpCall × Except LLMError EmbeddingResponse :=
  ([], .error (.unsupportedOperation "embeddings not supported for Azure provider yet"))

/-- Modelled from the spec: the Qwen `CreateEmbedding` stub.  The
CHANGELOG records it ("Qwen: Added stub for embedding support (returns
\"not supported yet\" error)") and spec §4.2 says it fails with
`UnsupportedOperationError` without any network call, mirroring the
Azure stub, but the qwen_client.go revision containing it is not in the
snapshot. -/
def qwenCreateEmbedding (_c : Config) (_r : EmbeddingRequest) :
    List HttpCall × Except LLMError EmbeddingResponse :=
  ([], .error (.unsupportedOperation "embeddings not supported for Qwen provider yet"))

/-- Parsed success body of the OpenAI `/embeddings` response:
`data[i].{index, embedding}` and `usage.total_tokens`. -/
structure OpenAIEmbedBody where
  data : List (Nat × List ℚ)
  totalTokens : Int
  deriving DecidableEq, Repr

/-- Insert an indexed embedding into an index-sorted list. -/
def insertByIdx (p : Nat × List ℚ) : List (Nat × List ℚ) → List (Nat × List ℚ)
  | [] => [p]
  | q :: rest => if p.1 ≤ q.1 then p :: q :: rest else q :: insertByIdx p rest

/-- Stable sort of indexed embeddings by their `index` field. -/
def sortByIdx : List (Nat × List ℚ) → List (Nat × List ℚ)
  | [] => []
  | p :: rest => insertByIdx p (sortByIdx rest)

/-- Modelled from the spec: `openAIClient.CreateEmbedding`.  The
CHANGELOG records the implementation ("Implemented `CreateEmbedding` for
OpenAI provider … index-based ordering") and spec §4.2 describes the
mapping (input array sent as `input`, `data[].embedding` reordered by
index, `usage.total_tokens`), but the openai_client.go revision
containing it is not in the snapshot. -/
def openAICreateEmbedding (c : Config) (r : EmbeddingRequest)
    (o : HttpResult OpenAIEmbedBody) :
    List HttpCall × Except LLMError EmbeddingResponse :=
  let model := getModel c r.Model
  let payload := mapOf [("model", .str model), ("input", .strList r.Input)]
  let call : HttpCall := ⟨"POST", c.BaseURL ++ "/embeddings", payload⟩
  match o with
  | .failure msg =>
    ([call], .error (.transportError ("failed to send embedding request: " ++ msg)))
  | .response status rawBody parsed =>
    if status < 200 ∨ 300 ≤ status then
      ([call], .error (.remoteAPIError status rawBody))
    else
      match parsed with
      | none => ([call], .error (.decodeError "failed to unmarshal embedding response"))
      | some body =>
        if body.data.isEmpty then
          ([call], .error (.emptyResult "no embeddings in response"))
        else
          let ordered := (sortByIdx body.data).map Prod.snd
          ([call], .ok ⟨ordered, model, body.totalTokens⟩)

/-! ## Heap model of Go slices

The frame claim about `GenerateWithHistory` is about Go aliasing: the
caller's `ChatHistory` hands its `Messages` slice to `BuildChatRequest`,
and the guarantee that the caller's history is untouched rests on
`BuildChatRequest` writing only into a freshly `make`d backing array and
on `append` never writing into a full backing array.  To verify that, Go
slices are modelled explicitly: a heap of backing arrays (each array a
`List Message` whose length is its capacity, zero-value padded), and a
slice as an array id, start offset, length and capacity.  `append`
follows Go's rule: it writes in place when the elements fit within the
capacity and reallocates into a fresh array otherwise. -/

/-- The zero value of `Message`. -/
def zeroMessage : Message := ⟨"", "", ""⟩

/-- The heap: backing arrays indexed by position. -/
abbrev Heap : Type := List (List Message)

/-- A Go slice header. -/
structure Slice where
  arr : Nat
  start : Nat
  len : Nat
  cap : Nat
  deriving DecidableEq, Repr

/-- The messages visible through a slice. -/
def readSlice (h : Heap) (s : Slice) : List Message :=
  ((h.getD s.arr []).drop s.start).take s.len

/-- Write one element at absolute index `i` of backing array `a`. -/
def heapWrite (h : Heap) (a i : Nat) (m : Message) : Heap :=
  h.set a ((h.getD a []).set i m)

/-- Write consecutive elements starting at absolute index `i` of backing
array `a`. -/
def writeSeq (h : Heap) (a i : Nat) (xs : List Message) : Heap :=
  match xs with
  | [] => h
  | x :: rest => writeSeq (heapWrite h a i x) a (i + 1) rest

/-- Go `make([]Message, len, cap)`: a fresh zero-filled backing array. -/
def goMake (h : Heap) (len cap : Nat) : Heap × Slice :=
  (h ++ [List.replicate cap zeroMessage], ⟨h.length, 0, len, cap⟩)

/-- A slice literal `[]Message{m}`: a fresh backing array with length and
capacity 1. -/
def goSliceLit1 (h : Heap) (m : Message) : Heap × Slice :=
  (h ++ [[m]], ⟨h.length, 0, 1, 1⟩)

/-- Go `append(s, xs...)`: writes into the existing backing array when
the new length fits within the capacity, otherwise copies into a fresh
larger array (growth factor irrelevant to the properties proved here;
only freshness matters). -/
def goAppendAll (h : Heap) (s : Slice) (xs : List Message) : Heap × Slice :=
  if s.len + xs.length ≤ s.cap then
    (writeSeq h s.arr (s.start + s.len) xs, ⟨s.arr, s.start, s.len + xs.length, s.cap⟩)
  else
    let newLen := s.len + xs.length
    let newCap := max (2 * s.cap) newLen
    let content := readSlice h s ++ xs
    (h ++ [content ++ List.replicate (newCap - content.length) zeroMessage],
     ⟨h.length, 0, newLen, newCap⟩)

/-- `BuildChatRequest` (client.go lines 49-57) at the slice level:
`make` a fresh slice with capacity `len(history)+1`, `append` the
history's elements, `append` the new user message. -/
def buildChatRequestH (h : Heap) (hist : Slice) (userMessage : String) : Heap × Slice :=
  let p1 := goMake h 0 (hist.len + 1)
  let p2 := goAppendAll p1.1 p1.2 (readSlice p1.1 hist)
  goAppendAll p2.1 p2.2 [⟨RoleUser, userMessage, ""⟩]

/-- `Request.AddSystemMessage` (client.go lines 70-72) at the slice
level: `append([]Message{system}, r.Messages...)` builds from a fresh
length-1 literal. -/
def addSystemMessageH (h : Heap) (req : Slice) (content : String) : Heap × Slice :=
  let lit := goSliceLit1 h ⟨RoleSystem, content, ""⟩
  goAppendAll lit.1 lit.2 (readSlice lit.1 req)

/-- `openAIClient.GenerateWithHistory` (openai_client.go lines 137-143)
at the slice level; the qwen, azure and cohere adapters are textually
identical.  The adapter's stored config is threaded through and returned
because the Go methods only ever read `c.config`; `Generate` reads the
request slice and performs the HTTP round trip described by the
oracle. -/
def generateWithHistoryH (cfg : Config) (h : Heap) (hist : Slice)
    (userMessage systemPrompt : String) (o : HttpResult OAIChatBody) :
    Heap × Config × Except LLMError Response :=
  let p1 := buildChatRequestH h hist userMessage
  let p2 := if systemPrompt ≠ "" then addSystemMessageH p1.1 p1.2 systemPrompt else p1
  (p2.1, cfg, openAIGenerateResult o)

/-! ## Lemmas about payload maps -/

theorem mapGet_mapSet_self (m : Payload) (k : String) (v : PValue) :
    mapGet (mapSet m k v) k = some v := by
  simp [mapGet, mapSet]

theorem mapGet_mapSet_ne (m : Payload) (k q : String) (v : PValue) (h : q ≠ k) :
    mapGet (mapSet m k v) q = mapGet m q := by
  simp [mapGet, mapSet, h]

theorem mapGet_setFromOpt_ne (m : Payload) (k q : String) (a b : Option PValue)
    (h : q ≠ k) : mapGet (setFromOpt m k a b) q = mapGet m q := by
  cases a <;> cases b <;> simp [setFromOpt, mapGet_mapSet_ne _ _ _ _ h]

theorem mapGet_setFromOpt_self (m : Payload) (k : String) (a b : Option PValue)
    (h : mapGet m k = none) : mapGet (setFromOpt m k a b) k = firstSome a b := by
  cases a <;> cases b <;> simp [setFromOpt, firstSome, mapGet_mapSet_self, h]

theorem firstSome_map {α β : Type} (f : α → β) (a b : Option α) :
    firstSome (a.map f) (b.map f) = (firstSome a b).map f := by
  cases a <;> cases b <;> simp [firstSome]

theorem mapSetAll_nil (m : Payload) : mapSetAll m [] = m := rfl

theorem mapSetAll_cons (m : Payload) (k : String) (v : PValue)
    (rest : List (String × PValue)) :
    mapSetAll m ((k, v) :: rest) = mapSetAll (mapSet m k v) rest := rfl

theorem mapGet_mapSetAll_notmem (kvs : List (String × PValue)) (m : Payload) (k : String)
    (h : k ∉ kvs.map Prod.fst) : mapGet (mapSetAll m kvs) k = mapGet m k := by
  induction kvs generalizing m with
  | nil => rfl
  | cons kv rest ih =>
    simp only [List.map_cons, List.mem_cons, not_or] at h
    rw [show kv = (kv.1, kv.2) from rfl, mapSetAll_cons, ih _ h.2,
      mapGet_mapSet_ne _ _ _ _ h.1]

theorem mapGet_mapSetAll_mem (kvs : List (String × PValue)) (m : Payload) (k : String)
    (v : PValue) (hmem : (k, v) ∈ kvs) (hnd : (kvs.map Prod.fst).Nodup) :
    mapGet (mapSetAll m kvs) k = some v := by
  induction kvs generalizing m with
  | nil => cases hmem
  | cons kv rest ih =>
    simp only [List.map_cons, List.nodup_cons] at hnd
    rcases List.mem_cons.mp hmem with heq | hrest
    · subst heq
      rw [mapSetAll_cons, mapGet_mapSetAll_notmem _ _ _ hnd.1, mapGet_mapSet_self]
    · have hk : k ≠ kv.1 := by
        intro hkk
        exact hnd.1 (hkk ▸ (List.mem_map.mpr ⟨(k, v), hrest, rfl⟩))
      rw [show kv = (kv.1, kv.2) from rfl, mapSetAll_cons, ih _ hrest hnd.2]

/-! ## Claim theorems -/

/-- Claim C1: `NewClient` dispatches openai/deepseek to the shared
OpenAI-compatible adapter, qwen and azure to their adapters, and rejects
unknown tags with `UnsupportedProviderError` — but the snapshot's switch
has no case for `ProviderCohere`, so a well-formed cohere config is also
rejected as an unsupported provider instead of yielding the Cohere
adapter that the repository's CHANGELOG, release notes and
embedding_test.go declare (`newCohereClient` itself exists and would
accept it). -/
theorem newClient_cohere_dispatch_bug :
    NewClient { Provider := "openai", APIKey := "test-key" } =
      .ok (.openai
        { Provider := "openai", APIKey := "test-key",
          BaseURL := "https://api.openai.com/v1", Timeout := thirtySeconds,
          DefaultModel := "gpt-3.5-turbo" }) ∧
    NewClient { Provider := "deepseek", APIKey := "test-key" } =
      .ok (.openai
        { Provider := "deepseek", APIKey := "test-key",
          BaseURL := "https://api.deepseek.com", Timeout := thirtySeconds,
          DefaultModel := "deepseek-chat" }) ∧
    NewClient { Provider := "qwen", APIKey := "test-key" } =
      .ok (.qwen
        { Provider := "qwen", APIKey := "test-key",
          BaseURL := "https://dashscope-intl.aliyuncs.com/compatible-mode/v1",
          Timeout := thirtySeconds, DefaultModel := "qwen3-next-80b-a3b-instruct" }) ∧
    NewClient
        { Provider := "azure", APIKey := "test-key",
          BaseURL := "https://r.openai.azure.com/openai/deployments/gpt4" } =
      .ok (.azure
        { Provider := "azure", APIKey := "test-key",
          BaseURL := "https://r.openai.azure.com/openai/deployments/gpt4",
          Timeout := thirtySeconds, DefaultModel := "gpt-35-turbo" }) ∧
    NewClient
        { Provider := "cohere", APIKey := "test-key",
          BaseURL := "https://api.cohere.ai/v1",
          DefaultModel := "embed-multilingual-v3.0" } =
      .error (.unsupportedProvider "cohere") ∧
    newCohereClient
        { Provider := "cohere", APIKey := "test-key",
          BaseURL := "https://api.cohere.ai/v1",
          DefaultModel := "embed-multilingual-v3.0" } =
      .ok
        { Provider := "cohere", APIKey := "test-key",
          BaseURL := "https://api.cohere.ai/v1", Timeout := thirtySeconds,
          DefaultModel := "embed-multilingual-v3.0" } ∧
    NewClient { Provider := "grok", APIKey := "test-key" } =
      .error (.unsupportedProvider "grok") := by
  refine ⟨?_, ?_, ?_, ?_, ?_, ?_, ?_⟩ <;> rfl

/-- Claim C4: with an empty API key, `NewClient` fails with
`ConfigurationError` ("API key is required") for the four providers its
switch knows (openai, deepseek, qwen, azure; for azure the key check
precedes the base-URL checks) — but a cohere config with an empty key is
rejected with `UnsupportedProviderError`, not `ConfigurationError`,
because the switch lacks the cohere case, although `newCohereClient`
itself performs the `ConfigurationError` check the claim describes. -/
theorem newClient_empty_apikey_bug :
    NewClient { Provider := "openai", APIKey := "" } =
      .error (.configurationError "API key is required") ∧
    NewClient { Provider := "deepseek", APIKey := "" } =
      .error (.configurationError "API key is required") ∧
    NewClient { Provider := "qwen", APIKey := "" } =
      .error (.configurationError "API key is required") ∧
    NewClient { Provider := "azure", APIKey := "" } =
      .error (.configurationError "API key is required") ∧
    NewClient { Provider := "cohere", APIKey := "" } =
      .error (.unsupportedProvider "cohere") ∧
    (LLMError.unsupportedProvider "cohere" ≠ .configurationError "API key is required") ∧
    newCohereClient { Provider := "cohere", APIKey := "" } =
      .error (.configurationError "API key is required") := by
  refine ⟨rfl, rfl, rfl, rfl, rfl, ?_, rfl⟩
  decide

/-- Claim C5: the request handed to `Generate` by `GenerateWithHistory`
carries exactly: a system message with the prompt first (present iff the
prompt is non-empty), then the history's messages in order, then the new
user message last. -/
theorem generateWithHistory_message_sequence (h : ChatHistory)
    (userMessage systemPrompt : String) :
    (generateWithHistoryRequest h userMessage systemPrompt).Messages =
      (if systemPrompt = "" then [] else [⟨RoleSystem, systemPrompt, ""⟩]) ++
        h.Messages ++ [⟨RoleUser, userMessage, ""⟩] := by
  unfold generateWithHistoryRequest BuildChatRequest addSystemMessage
  by_cases hsp : systemPrompt = "" <;> simp [hsp]

/-- Claim C8: `Truncate n` keeps exactly the chronologically-latest
`min n (original length)` messages: the result has that length, equals
the drop of the over-length prefix, and is a suffix of the original
(order preserved). -/
theorem truncate_keeps_last_n (h : ChatHistory) (n : Nat) :
    (truncateHistory h n).Messages.length = min n h.Messages.length ∧
    (truncateHistory h n).Messages = h.Messages.drop (h.Messages.length - n) ∧
    (truncateHistory h n).Messages <:+ h.Messages := by
  unfold truncateHistory
  by_cases hc : h.Messages.length > n
  · rw [if_pos hc]
    refine ⟨?_, rfl, List.drop_suffix _ _⟩
    simp only [List.length_drop]
    omega
  · rw [if_neg hc]
    refine ⟨by omega, ?_, List.suffix_refl _⟩
    have hz : h.Messages.length - n = 0 := by omega
    simp [hz]

/-- Claim C2: for every config and embedding request, the Qwen and Azure
`CreateEmbedding` stubs fail immediately with `UnsupportedOperationError`
and their HTTP trace is empty (no network call is attempted), while the
Cohere and OpenAI-compatible adapters have implemented mappings that
succeed on a well-formed provider response. -/
theorem createEmbedding_support_matrix :
    (∀ (c : Config) (r : EmbeddingRequest), azureCreateEmbedding c r =
      ([], .error (.unsupportedOperation
        "embeddings not supported for Azure provider yet"))) ∧
    (∀ (c : Config) (r : EmbeddingRequest), qwenCreateEmbedding c r =
      ([], .error (.unsupportedOperation
        "embeddings not supported for Qwen provider yet"))) ∧
    (cohereCreateEmbedding
        { Provider := "cohere", APIKey := "k", BaseURL := "https://api.cohere.ai/v1" }
        { Input := ["hello"] }
        (.response 200 "" (some ⟨[[1, 2]], 3⟩))).2 =
      .ok ⟨[[1, 2]], "embed-multilingual-v3.0", 3⟩ ∧
    (openAICreateEmbedding
        { Provider := "openai", APIKey := "k", BaseURL := "https://api.openai.com/v1",
          DefaultModel := "text-embedding-3-small" }
        { Input := ["hello"] }
        (.response 200 "" (some ⟨[(0, [1, 2])], 3⟩))).2 =
      .ok ⟨[[1, 2]], "text-embedding-3-small", 3⟩ := by
  refine ⟨fun c r => rfl, fun c r => rfl, ?_, ?_⟩ <;> rfl

/-- Claim C3 counterexample: the Cohere `CreateEmbedding` mapping never
compares the number of returned vectors against `len(request.Input)`:
for the two-text request below and a 2xx body holding a single vector,
the call succeeds with one embedding, so `len(Embeddings)` differs from
`len(request.Input)`. -/
theorem cohere_embedding_count_counterexample :
    (cohereCreateEmbedding
        { Provider := "cohere", APIKey := "k", BaseURL := "https://api.cohere.ai/v1" }
        { Input := ["a", "b"] }
        (.response 200 "" (some ⟨[[1]], 5⟩))).2 =
      .ok ⟨[[1]], "embed-multilingual-v3.0", 5⟩ ∧
    (EmbeddingResponse.Embeddings ⟨[[1]], "embed-multilingual-v3.0", 5⟩).length ≠
      (EmbeddingRequest.Input { Input := ["a", "b"] }).length := by
  exact ⟨rfl, by decide⟩

/-- Claim C3 amended: on a 2xx response the Cohere adapter returns the
parsed embedding vectors verbatim — when the parsed body holds zero
vectors the call fails with `EmptyResultError`, and on success
`Embeddings` equals the body's vectors, so `len(Embeddings) =
len(request.Input)` holds exactly when the provider returned one vector
per input. -/
theorem cohere_embedding_result_shape (c : Config) (r : EmbeddingRequest)
    (raw : String) (b : CohereEmbedBody) :
    (b.embeddings = [] →
      (cohereCreateEmbedding c r (.response 200 raw (some b))).2 =
        .error (.emptyResult "no embeddings in response")) ∧
    (∀ resp, (cohereCreateEmbedding c r (.response 200 raw (some b))).2 = .ok resp →
      resp.Embeddings = b.embeddings ∧
      (b.embeddings.length = r.Input.length →
        resp.Embeddings.length = r.Input.length)) := by
  constructor
  · intro he
    simp [cohereCreateEmbedding, he]
  · intro resp hr
    by_cases he : b.embeddings.isEmpty
    · simp [cohereCreateEmbedding, he] at hr
    · simp [cohereCreateEmbedding, he] at hr
      refine ⟨?_, ?_⟩
      · rw [← hr]
      · intro hlen
        rw [← hr]
        exact hlen

/-- Witness for `cohere_embedding_result_shape` at a concrete empty
body. -/
theorem cohere_embedding_result_shape_witness :
    (cohereCreateEmbedding
        { Provider := "cohere", APIKey := "k", BaseURL := "https://api.cohere.ai/v1" }
        { Input := ["a"] }
        (.response 200 "" (some ⟨[], 0⟩))).2 =
      .error (.emptyResult "no embeddings in response") :=
  (cohere_embedding_result_shape
    { Provider := "cohere", APIKey := "k", BaseURL := "https://api.cohere.ai/v1" }
    { Input := ["a"] } "" ⟨[], 0⟩).1 rfl

/-- The spec's description of the Cohere `chat_history` conversion:
prior user turns renamed to `USER`, assistant turns to `CHATBOT`, system
messages dropped, order preserved. -/
def cohereRenameHist (msgs : List Message) : List CohereHistMsg :=
  msgs.filterMap fun m =>
    if m.Role = RoleUser then some ⟨"USER", m.Content⟩
    else if m.Role = RoleAssistant then some ⟨"CHATBOT", m.Content⟩
    else none

theorem cohereLoop_append_user (c nm : String) (rest : List Message) :
    ∀ (n i : Nat) (message : String) (acc : List CohereHistMsg),
      i + rest.length + 1 = n →
      cohereLoop n i (rest ++ [⟨RoleUser, c, nm⟩]) message acc =
        (c, acc ++ cohereRenameHist rest) := by
  induction rest with
  | nil =>
    intro n i message acc hn
    have hn0 : i + 1 = n := by simpa using hn
    subst hn0
    simp [cohereLoop, RoleUser, RoleSystem, RoleAssistant, cohereRenameHist]
  | cons m rest ih =>
    intro n i message acc hn
    have hn' : (i + 1) + rest.length + 1 = n := by
      simp only [List.length_cons] at hn
      omega
    have hne : i ≠ n - 1 := by
      simp only [List.length_cons] at hn
      omega
    simp only [List.cons_append, cohereLoop, List.append_eq]
    by_cases h1 : m.Role = RoleSystem
    · rw [if_pos h1, ih _ _ _ _ hn']
      simp [cohereRenameHist, h1, RoleSystem, RoleUser, RoleAssistant]
    · rw [if_neg h1]
      by_cases h2 : m.Role = RoleUser
      · rw [if_pos h2, if_neg hne, ih _ _ _ _ hn']
        simp [cohereRenameHist, h2, RoleUser, RoleAssistant]
      · rw [if_neg h2]
        by_cases h3 : m.Role = RoleAssistant
        · rw [if_pos h3, ih _ _ _ _ hn']
          simp [cohereRenameHist, h2, h3, RoleUser, RoleAssistant]
        · rw [if_neg h3, ih _ _ _ _ hn']
          simp only [RoleUser, RoleSystem, RoleAssistant] at h1 h2 h3
          simp [cohereRenameHist, RoleUser, RoleSystem, RoleAssistant, h1, h2, h3]

theorem cohereBuildPayload_message (c : Config) (r : Request)
    (he : r.ExtraParams = []) :
    mapGet (cohereBuildPayload c r) "message" =
      some (.str (cohereLoop r.Messages.length 0 r.Messages "" []).1) := by
  unfold cohereBuildPayload
  rw [he, mapSetAll_nil,
    mapGet_setFromOpt_ne _ _ _ _ _ (by decide),
    mapGet_setFromOpt_ne _ _ _ _ _ (by decide),
    mapGet_setFromOpt_ne _ _ _ _ _ (by decide),
    mapGet_setFromOpt_ne _ _ _ _ _ (by decide)]
  split
  · rw [mapGet_mapSet_ne _ _ _ _ (by decide)]
    rfl
  · rfl

theorem cohereBuildPayload_chatHistory (c : Config) (r : Request)
    (he : r.ExtraParams = []) :
    mapGet (cohereBuildPayload c r) "chat_history" =
      (if (cohereLoop r.Messages.length 0 r.Messages "" []).2.length > 0
       then some (.hist (cohereLoop r.Messages.length 0 r.Messages "" []).2)
       else none) := by
  unfold cohereBuildPayload
  rw [he, mapSetAll_nil,
    mapGet_setFromOpt_ne _ _ _ _ _ (by decide),
    mapGet_setFromOpt_ne _ _ _ _ _ (by decide),
    mapGet_setFromOpt_ne _ _ _ _ _ (by decide),
    mapGet_setFromOpt_ne _ _ _ _ _ (by decide)]
  split
  · rw [mapGet_mapSet_self]
  · rfl

/-- Claim C6 counterexample: when the request's final message is not a
user message, `cohereClient.buildPayload` does not surface the latest
user message as `message`: for messages `[{user,"a"},{assistant,"b"}]`
(latest user content `"a"`), the payload's `message` is the empty string
and `"a"` instead lands in `chat_history`. -/
theorem cohere_payload_message_counterexample :
    mapGet (cohereBuildPayload { Provider := "cohere", APIKey := "k" }
        { Messages := [⟨"user", "a", ""⟩, ⟨"assistant", "b", ""⟩] }) "message" =
      some (.str "") ∧
    PValue.str "" ≠ PValue.str "a" ∧
    mapGet (cohereBuildPayload { Provider := "cohere", APIKey := "k" }
        { Messages := [⟨"user", "a", ""⟩, ⟨"assistant", "b", ""⟩] }) "chat_history" =
      some (.hist [⟨"USER", "a"⟩, ⟨"CHATBOT", "b"⟩]) := by
  exact ⟨rfl, by decide, rfl⟩

/-- Claim C6 amended: for a request built as history plus a *final* user
message (the `BuildChatRequest` shape), the Cohere payload's `message`
is that final user message's content, and `chat_history` holds exactly
the history's user/assistant turns renamed to `USER`/`CHATBOT` in order,
with system messages silently dropped (the key is omitted when that list
is empty).  In particular history `[{user,"a"},{assistant,"b"}]` with new
user message `"c"` yields `chat_history [{USER,"a"},{CHATBOT,"b"}]` and
`message "c"`.  A request whose final message is not a user message
instead gets an empty `message` (see the counterexample). -/
theorem cohere_payload_chat_request (c : Config) (hist : List Message)
    (userMessage : String) :
    mapGet (cohereBuildPayload c (BuildChatRequest hist userMessage)) "message" =
      some (.str userMessage) ∧
    mapGet (cohereBuildPayload c (BuildChatRequest hist userMessage)) "chat_history" =
      (if (cohereRenameHist hist).length > 0
       then some (.hist (cohereRenameHist hist)) else none) := by
  have hmsgs : (BuildChatRequest hist userMessage).Messages =
      hist ++ [⟨RoleUser, userMessage, ""⟩] := rfl
  have hlen : (BuildChatRequest hist userMessage).Messages.length =
      hist.length + 1 := by
    rw [hmsgs]
    simp
  have hsplit : cohereLoop (BuildChatRequest hist userMessage).Messages.length 0
      (BuildChatRequest hist userMessage).Messages "" [] =
      (userMessage, cohereRenameHist hist) := by
    rw [hlen, hmsgs]
    simpa using cohereLoop_append_user userMessage "" hist (hist.length + 1) 0 "" []
      (by omega)
  refine ⟨?_, ?_⟩
  · rw [cohereBuildPayload_message c _ rfl, hsplit]
  · rw [cohereBuildPayload_chatHistory c _ rfl, hsplit]

/-- Claim C7 counterexample: the OpenAI-compatible payload builder never
maps `topK` at all: with a request-level `TopK` of 40 set (and no extra
params), the outgoing payload has no `top_k` key, contradicting
"resolves each of … topK … by taking the request-level value when
set". -/
theorem openai_topk_unmapped_counterexample :
    mapGet (openAIBuildPayload { Provider := "openai", APIKey := "k" }
        { Messages := [⟨"user", "hi", ""⟩], TopK := some 40 }) "top_k" = none ∧
    ({ Messages := [⟨"user", "hi", ""⟩], TopK := some 40 } : Request).TopK =
      some 40 := by
  exact ⟨rfl, rfl⟩

/-- Claim C7 amended: for a request without extra params, every builder
resolves each sampling parameter *it maps* as request-level value first,
else config-level default; when both are unset the key is omitted rather
than filled from a hardcoded default — with the single exception of the
Qwen builder's `max_tokens`, which is always present and falls back to
the hardcoded 1500.  The OpenAI-compatible and Azure builders do not map
`topK` at all; Qwen maps it as `top_k` and Cohere as `k` (and `topP` as
`p`). -/
theorem payload_param_resolution (c : Config) (r : Request)
    (he : r.ExtraParams = []) :
    (mapGet (openAIBuildPayload c r) "temperature" =
        (firstSome r.Temperature c.DefaultTemperature).map PValue.num ∧
      mapGet (openAIBuildPayload c r) "max_tokens" =
        (firstSome r.MaxTokens c.DefaultMaxTokens).map PValue.int ∧
      mapGet (openAIBuildPayload c r) "top_p" =
        (firstSome r.TopP c.DefaultTopP).map PValue.num ∧
      mapGet (openAIBuildPayload c r) "top_k" = none) ∧
    (mapGet (azureBuildPayload c r) "temperature" =
        (firstSome r.Temperature c.DefaultTemperature).map PValue.num ∧
      mapGet (azureBuildPayload c r) "max_tokens" =
        (firstSome r.MaxTokens c.DefaultMaxTokens).map PValue.int ∧
      mapGet (azureBuildPayload c r) "top_p" =
        (firstSome r.TopP c.DefaultTopP).map PValue.num ∧
      mapGet (azureBuildPayload c r) "top_k" = none) ∧
    (mapGet (qwenBuildPayload c r) "max_tokens" =
        some (.int (qwenGetMaxTokens c r.MaxTokens)) ∧
      qwenGetMaxTokens c r.MaxTokens =
        (firstSome r.MaxTokens c.DefaultMaxTokens).getD 1500 ∧
      mapGet (qwenBuildPayload c r) "temperature" =
        (firstSome r.Temperature c.DefaultTemperature).map PValue.num ∧
      mapGet (qwenBuildPayload c r) "top_p" =
        (firstSome r.TopP c.DefaultTopP).map PValue.num ∧
      mapGet (qwenBuildPayload c r) "top_k" =
        (firstSome r.TopK c.DefaultTopK).map PValue.int) ∧
    (mapGet (cohereBuildPayload c r) "temperature" =
        (firstSome r.Temperature c.DefaultTemperature).map PValue.num ∧
      mapGet (cohereBuildPayload c r) "max_tokens" =
        (firstSome r.MaxTokens c.DefaultMaxTokens).map PValue.int ∧
      mapGet (cohereBuildPayload c r) "p" =
        (firstSome r.TopP c.DefaultTopP).map PValue.num ∧
      mapGet (cohereBuildPayload c r) "k" =
        (firstSome r.TopK c.DefaultTopK).map PValue.int) := by
  refine ⟨⟨?_, ?_, ?_, ?_⟩, ⟨?_, ?_, ?_, ?_⟩, ⟨?_, ?_, ?_, ?_, ?_⟩, ⟨?_, ?_, ?_, ?_⟩⟩
  · unfold openAIBuildPayload
    rw [he, mapSetAll_nil, mapGet_setFromOpt_ne _ _ _ _ _ (by decide),
      mapGet_setFromOpt_ne _ _ _ _ _ (by decide),
      mapGet_setFromOpt_self _ _ _ _ ?_, firstSome_map]
    rfl
  · unfold openAIBuildPayload
    rw [he, mapSetAll_nil, mapGet_setFromOpt_ne _ _ _ _ _ (by decide),
      mapGet_setFromOpt_self _ _ _ _ ?_, firstSome_map]
    rw [mapGet_setFromOpt_ne _ _ _ _ _ (by decide)]
    rfl
  · unfold openAIBuildPayload
    rw [he, mapSetAll_nil, mapGet_setFromOpt_self _ _ _ _ ?_, firstSome_map]
    rw [mapGet_setFromOpt_ne _ _ _ _ _ (by decide),
      mapGet_setFromOpt_ne _ _ _ _ _ (by decide)]
    rfl
  · unfold openAIBuildPayload
    rw [he, mapSetAll_nil, mapGet_setFromOpt_ne _ _ _ _ _ (by decide),
      mapGet_setFromOpt_ne _ _ _ _ _ (by decide),
      mapGet_setFromOpt_ne _ _ _ _ _ (by decide)]
    rfl
  · unfold azureBuildPayload
    rw [he, mapSetAll_nil, mapGet_setFromOpt_ne _ _ _ _ _ (by decide),
      mapGet_setFromOpt_ne _ _ _ _ _ (by decide),
      mapGet_setFromOpt_self _ _ _ _ ?_, firstSome_map]
    rfl
  · unfold azureBuildPayload
    rw [he, mapSetAll_nil, mapGet_setFromOpt_ne _ _ _ _ _ (by decide),
      mapGet_setFromOpt_self _ _ _ _ ?_, firstSome_map]
    rw [mapGet_setFromOpt_ne _ _ _ _ _ (by decide)]
    rfl
  · unfold azureBuildPayload
    rw [he, mapSetAll_nil, mapGet_setFromOpt_self _ _ _ _ ?_, firstSome_map]
    rw [mapGet_setFromOpt_ne _ _ _ _ _ (by decide),
      mapGet_setFromOpt_ne _ _ _ _ _ (by decide)]
    rfl
  · unfold azureBuildPayload
    rw [he, mapSetAll_nil, mapGet_setFromOpt_ne _ _ _ _ _ (by decide),
      mapGet_setFromOpt_ne _ _ _ _ _ (by decide),
      mapGet_setFromOpt_ne _ _ _ _ _ (by decide)]
    rfl
  · unfold qwenBuildPayload
    rw [he, mapSetAll_nil, mapGet_setFromOpt_ne _ _ _ _ _ (by decide),
      mapGet_setFromOpt_ne _ _ _ _ _ (by decide),
      mapGet_setFromOpt_ne _ _ _ _ _ (by decide)]
    exact mapGet_mapSet_self _ _ _
  · unfold qwenGetMaxTokens firstSome
    cases r.MaxTokens <;> cases c.DefaultMaxTokens <;> rfl
  · unfold qwenBuildPayload
    rw [he, mapSetAll_nil, mapGet_setFromOpt_ne _ _ _ _ _ (by decide),
      mapGet_setFromOpt_ne _ _ _ _ _ (by decide),
      mapGet_setFromOpt_self _ _ _ _ ?_, firstSome_map]
    rfl
  · unfold qwenBuildPayload
    rw [he, mapSetAll_nil, mapGet_setFromOpt_ne _ _ _ _ _ (by decide),
      mapGet_setFromOpt_self _ _ _ _ ?_, firstSome_map]
    rw [mapGet_setFromOpt_ne _ _ _ _ _ (by decide)]
    rfl
  · unfold qwenBuildPayload
    rw [he, mapSetAll_nil, mapGet_setFromOpt_self _ _ _ _ ?_, firstSome_map]
    rw [mapGet_setFromOpt_ne _ _ _ _ _ (by decide),
      mapGet_setFromOpt_ne _ _ _ _ _ (by decide)]
    rfl
  · unfold cohereBuildPayload
    rw [he, mapSetAll_nil, mapGet_setFromOpt_ne _ _ _ _ _ (by decide),
      mapGet_setFromOpt_ne _ _ _ _ _ (by decide),
      mapGet_setFromOpt_ne _ _ _ _ _ (by decide),
      mapGet_setFromOpt_self _ _ _ _ ?_, firstSome_map]
    split
    · rw [mapGet_mapSet_ne _ _ _ _ (by decide)]
      rfl
    · rfl
  · unfold cohereBuildPayload
    rw [he, mapSetAll_nil, mapGet_setFromOpt_ne _ _ _ _ _ (by decide),
      mapGet_setFromOpt_ne _ _ _ _ _ (by decide),
      mapGet_setFromOpt_self _ _ _ _ ?_, firstSome_map]
    rw [mapGet_setFromOpt_ne _ _ _ _ _ (by decide)]
    split
    · rw [mapGet_mapSet_ne _ _ _ _ (by decide)]
      rfl
    · rfl
  · unfold cohereBuildPayload
    rw [he, mapSetAll_nil, mapGet_setFromOpt_ne _ _ _ _ _ (by decide),
      mapGet_setFromOpt_self _ _ _ _ ?_, firstSome_map]
    rw [mapGet_setFromOpt_ne _ _ _ _ _ (by decide),
      mapGet_setFromOpt_ne _ _ _ _ _ (by decide)]
    split
    · rw [mapGet_mapSet_ne _ _ _ _ (by decide)]
      rfl
    · rfl
  · unfold cohereBuildPayload
    rw [he, mapSetAll_nil, mapGet_setFromOpt_self _ _ _ _ ?_, firstSome_map]
    rw [mapGet_setFromOpt_ne _ _ _ _ _ (by decide),
      mapGet_setFromOpt_ne _ _ _ _ _ (by decide),
      mapGet_setFromOpt_ne _ _ _ _ _ (by decide)]
    split
    · rw [mapGet_mapSet_ne _ _ _ _ (by decide)]
      rfl
    · rfl

/-- Witness for `payload_param_resolution`: with nothing set anywhere,
the Qwen payload's `max_tokens` is the hardcoded 1500 and the OpenAI
payload has no `top_k` key. -/
theorem payload_param_resolution_witness :
    mapGet (qwenBuildPayload { Provider := "qwen", APIKey := "k" }
        { Messages := [⟨"user", "hi", ""⟩] }) "max_tokens" = some (.int 1500) ∧
    mapGet (openAIBuildPayload { Provider := "openai", APIKey := "k" }
        { Messages := [⟨"user", "hi", ""⟩] }) "top_k" = none :=
  ⟨(payload_param_resolution { Provider := "qwen", APIKey := "k" }
      { Messages := [⟨"user", "hi", ""⟩] } rfl).2.2.1.1,
   (payload_param_resolution { Provider := "openai", APIKey := "k" }
      { Messages := [⟨"user", "hi", ""⟩] } rfl).1.2.2.2⟩

/-- Claim C10: with the Go-map invariant that `ExtraParams` keys are
unique, every entry of `ExtraParams` wins the final payload lookup in
all four builders, because the `for k, v := range request.ExtraParams
{ payload[k] = v }` loop runs after every named field is set — so a
caller-supplied key such as "model", "messages", "max_tokens" or
"stream" silently replaces the adapter-computed value. -/
theorem extraParams_shadow_named_fields (c : Config) (r : Request) (k : String)
    (v : PValue) (hmem : (k, v) ∈ r.ExtraParams)
    (hnd : (r.ExtraParams.map Prod.fst).Nodup) :
    mapGet (openAIBuildPayload c r) k = some v ∧
    mapGet (azureBuildPayload c r) k = some v ∧
    mapGet (qwenBuildPayload c r) k = some v ∧
    mapGet (cohereBuildPayload c r) k = some v := by
  refine ⟨?_, ?_, ?_, ?_⟩ <;>
    exact mapGet_mapSetAll_mem _ _ _ _ hmem hnd

/-- Witness for `extraParams_shadow_named_fields`: a caller-supplied
`"model"` extra param overrides the adapter-computed model in all four
payloads. -/
theorem extraParams_shadow_named_fields_witness :
    mapGet (openAIBuildPayload { Provider := "openai", APIKey := "k" }
        { Messages := [⟨"user", "hi", ""⟩],
          ExtraParams := [("model", .str "caller-model")] }) "model" =
      some (.str "caller-model") ∧
    mapGet (azureBuildPayload { Provider := "azure", APIKey := "k" }
        { Messages := [⟨"user", "hi", ""⟩],
          ExtraParams := [("model", .str "caller-model")] }) "model" =
      some (.str "caller-model") ∧
    mapGet (qwenBuildPayload { Provider := "qwen", APIKey := "k" }
        { Messages := [⟨"user", "hi", ""⟩],
          ExtraParams := [("model", .str "caller-model")] }) "model" =
      some (.str "caller-model") ∧
    mapGet (cohereBuildPayload { Provider := "cohere", APIKey := "k" }
        { Messages := [⟨"user", "hi", ""⟩],
          ExtraParams := [("model", .str "caller-model")] }) "model" =
      some (.str "caller-model") := by
  exact ⟨(extraParams_shadow_named_fields _ _ "model" (.str "caller-model")
      (by simp) (by simp)).1,
    (extraParams_shadow_named_fields _ _ "model" (.str "caller-model")
      (by simp) (by simp)).2.1,
    (extraParams_shadow_named_fields _ _ "model" (.str "caller-model")
      (by simp) (by simp)).2.2.1,
    (extraParams_shadow_named_fields _ _ "model" (.str "caller-model")
      (by simp) (by simp)).2.2.2⟩

/-! ## Lemmas about the heap model -/

theorem getD_append_left (h l : Heap) (i : Nat) (hi : i < h.length) :
    (h ++ l).getD i [] = h.getD i [] := by
  unfold List.getD
  rw [List.get?_eq_getElem?, List.get?_eq_getElem?, List.getElem?_append_left hi]

theorem getD_set_ne (l : Heap) (a i : Nat) (x : List Message) (hne : i ≠ a) :
    (l.set a x).getD i [] = l.getD i [] := by
  unfold List.getD
  rw [List.get?_eq_getElem?, List.get?_eq_getElem?, List.getElem?_set_ne (by omega)]

theorem heapWrite_getD_ne (h : Heap) (a i j : Nat) (m : Message) (hne : j ≠ a) :
    (heapWrite h a i m).getD j [] = h.getD j [] :=
  getD_set_ne h a j _ hne

theorem heapWrite_length (h : Heap) (a i : Nat) (m : Message) :
    (heapWrite h a i m).length = h.length :=
  List.length_set h a _

theorem writeSeq_getD_ne (xs : List Message) (h : Heap) (a i j : Nat) (hne : j ≠ a) :
    (writeSeq h a i xs).getD j [] = h.getD j [] := by
  induction xs generalizing h i with
  | nil => rfl
  | cons x rest ih =>
    show (writeSeq (heapWrite h a i x) a (i + 1) rest).getD j [] = h.getD j []
    rw [ih _ _, heapWrite_getD_ne _ _ _ _ _ hne]

theorem writeSeq_length (xs : List Message) (h : Heap) (a i : Nat) :
    (writeSeq h a i xs).length = h.length := by
  induction xs generalizing h i with
  | nil => rfl
  | cons x rest ih =>
    show (writeSeq (heapWrite h a i x) a (i + 1) rest).length = h.length
    rw [ih _ _, heapWrite_length]

theorem goAppendAll_getD_frame (h : Heap) (s : Slice) (xs : List Message) (j : Nat)
    (hj : j < h.length) (hja : j ≠ s.arr) :
    ((goAppendAll h s xs).1).getD j [] = h.getD j [] := by
  unfold goAppendAll
  split
  · exact writeSeq_getD_ne _ _ _ _ _ hja
  · exact getD_append_left _ _ _ hj

theorem goAppendAll_length_ge (h : Heap) (s : Slice) (xs : List Message) :
    h.length ≤ ((goAppendAll h s xs).1).length := by
  unfold goAppendAll
  split
  · rw [writeSeq_length]
  · simp

theorem goAppendAll_arr (h : Heap) (s : Slice) (xs : List Message) :
    ((goAppendAll h s xs).2).arr = s.arr ∨ ((goAppendAll h s xs).2).arr = h.length := by
  unfold goAppendAll
  split
  · left
    rfl
  · right
    rfl

/-- Appending through a slice whose backing array lies at or beyond `L`
leaves every array below `L` untouched, keeps the heap at least `L`
long, and returns a slice whose backing array still lies at or beyond
`L`. -/
theorem goAppendAll_preserve (L : Nat) (h : Heap) (s : Slice) (xs : List Message)
    (j : Nat) (hj : j < L) (hL : L ≤ h.length) (hs : L ≤ s.arr) :
    ((goAppendAll h s xs).1).getD j [] = h.getD j [] ∧
    L ≤ ((goAppendAll h s xs).1).length ∧
    L ≤ ((goAppendAll h s xs).2).arr := by
  refine ⟨goAppendAll_getD_frame h s xs j (by omega) (by omega),
    le_trans hL (goAppendAll_length_ge h s xs), ?_⟩
  rcases goAppendAll_arr h s xs with hc | hc <;> rw [hc] <;> omega

/-- `BuildChatRequest` at the slice level only writes into backing
arrays it freshly allocates: every array below the original heap bound
is untouched, and the returned request slice is backed at or beyond that
bound. -/
theorem buildChatRequestH_facts (h : Heap) (hist : Slice) (um : String) (j : Nat)
    (hj : j < h.length) :
    ((buildChatRequestH h hist um).1).getD j [] = h.getD j [] ∧
    h.length ≤ ((buildChatRequestH h hist um).1).length ∧
    h.length ≤ ((buildChatRequestH h hist um).2).arr := by
  have e : buildChatRequestH h hist um =
      goAppendAll
        (goAppendAll (h ++ [List.replicate (hist.len + 1) zeroMessage])
          ⟨h.length, 0, 0, hist.len + 1⟩
          (readSlice (h ++ [List.replicate (hist.len + 1) zeroMessage]) hist)).1
        (goAppendAll (h ++ [List.replicate (hist.len + 1) zeroMessage])
          ⟨h.length, 0, 0, hist.len + 1⟩
          (readSlice (h ++ [List.replicate (hist.len + 1) zeroMessage]) hist)).2
        [⟨RoleUser, um, ""⟩] := rfl
  have h1len : h.length ≤ (h ++ [List.replicate (hist.len + 1) zeroMessage]).length := by
    simp
  have step2 := goAppendAll_preserve h.length
    (h ++ [List.replicate (hist.len + 1) zeroMessage]) ⟨h.length, 0, 0, hist.len + 1⟩
    (readSlice (h ++ [List.replicate (hist.len + 1) zeroMessage]) hist) j hj h1len
    (le_refl _)
  have step3 := goAppendAll_preserve h.length
    (goAppendAll (h ++ [List.replicate (hist.len + 1) zeroMessage])
      ⟨h.length, 0, 0, hist.len + 1⟩
      (readSlice (h ++ [List.replicate (hist.len + 1) zeroMessage]) hist)).1
    (goAppendAll (h ++ [List.replicate (hist.len + 1) zeroMessage])
      ⟨h.length, 0, 0, hist.len + 1⟩
      (readSlice (h ++ [List.replicate (hist.len + 1) zeroMessage]) hist)).2
    [⟨RoleUser, um, ""⟩] j hj step2.2.1 step2.2.2
  rw [e]
  refine ⟨?_, step3.2.1, step3.2.2⟩
  rw [step3.1, step2.1, getD_append_left _ _ _ hj]

/-- `AddSystemMessage` at the slice level likewise writes only into
freshly allocated backing arrays. -/
theorem addSystemMessageH_facts (L : Nat) (h : Heap) (req : Slice) (content : String)
    (j : Nat) (hj : j < L) (hL : L ≤ h.length) :
    ((addSystemMessageH h req content).1).getD j [] = h.getD j [] := by
  have e : addSystemMessageH h req content =
      goAppendAll (h ++ [[⟨RoleSystem, content, ""⟩]]) ⟨h.length, 0, 1, 1⟩
        (readSlice (h ++ [[⟨RoleSystem, content, ""⟩]]) req) := rfl
  have hjh : j < h.length := by omega
  have step := goAppendAll_preserve h.length (h ++ [[⟨RoleSystem, content, ""⟩]])
    ⟨h.length, 0, 1, 1⟩ (readSlice (h ++ [[⟨RoleSystem, content, ""⟩]]) req) j hjh
    (by simp) (le_refl _)
  rw [e, step.1, getD_append_left _ _ _ hjh]

/-- Claim C9: for every adapter config, heap, history slice, inputs and
HTTP outcome (including transport failures, non-2xx statuses and decode
failures), `GenerateWithHistory` leaves the caller's `ChatHistory`
message sequence unchanged — the outgoing request is built by copying
the history into a freshly `make`d backing array, so no write ever
touches the history's own backing array — and returns the adapter's
stored `Config` unchanged, keeping both reusable for the next call. -/
theorem generateWithHistory_frame (cfg : Config) (h : Heap) (hist : Slice)
    (userMessage systemPrompt : String) (o : HttpResult OAIChatBody)
    (hv : hist.arr < h.length) :
    readSlice ((generateWithHistoryH cfg h hist userMessage systemPrompt o).1) hist =
      readSlice h hist ∧
    (generateWithHistoryH cfg h hist userMessage systemPrompt o).2.1 = cfg := by
  have e : (generateWithHistoryH cfg h hist userMessage systemPrompt o).1 =
      (if systemPrompt ≠ "" then
        addSystemMessageH (buildChatRequestH h hist userMessage).1
          (buildChatRequestH h hist userMessage).2 systemPrompt
      else buildChatRequestH h hist userMessage).1 := rfl
  constructor
  · have hb := buildChatRequestH_facts h hist userMessage hist.arr hv
    rw [e]
    by_cases hsp : systemPrompt ≠ ""
    · rw [if_pos hsp]
      have ha := addSystemMessageH_facts h.length (buildChatRequestH h hist userMessage).1
        (buildChatRequestH h hist userMessage).2 systemPrompt hist.arr hv hb.2.1
      unfold readSlice
      rw [ha, hb.1]
    · rw [if_neg hsp]
      unfold readSlice
      rw [hb.1]
  · rfl

/-- Witness for `generateWithHistory_frame` on a one-message history and
a failing transport. -/
theorem generateWithHistory_frame_witness :
    readSlice ((generateWithHistoryH { Provider := "openai", APIKey := "k" }
        [[⟨"user", "x", ""⟩]] ⟨0, 0, 1, 1⟩ "u" "s" (.failure "connection refused")).1)
      ⟨0, 0, 1, 1⟩ = readSlice [[⟨"user", "x", ""⟩]] ⟨0, 0, 1, 1⟩ ∧
    (generateWithHistoryH { Provider := "openai", APIKey := "k" }
        [[⟨"user", "x", ""⟩]] ⟨0, 0, 1, 1⟩ "u" "s" (.failure "connection refused")).2.1 =
      { Provider := "openai", APIKey := "k" } :=
  generateWithHistory_frame { Provider := "openai", APIKey := "k" }
    [[⟨"user", "x", ""⟩]] ⟨0, 0, 1, 1⟩ "u" "s" (.failure "connection refused") (by decide)

end LLMClient
